import Mathlib

/-!
Verification of the CLI output-adaptation layer of ldk-server
(`src/ldk-server-cli/src/types.rs`).

The layer converts wire-format API response records into display-oriented
records for CLI output: a pagination-token formatter, a byte-to-hex encoder,
and a payment-variant normalizer.  The upstream protobuf record types
(`Payment`, `PaymentKind`, `Bolt11`, ...) live in a generated crate that is
not part of the sources here; their field shapes are modelled from the spec
and from how the CLI code accesses them.  Serialization (serde with
`skip_serializing_if = "Option::is_none"` annotations) is modelled as an
explicit function from each record to a field list, honouring the omission
annotations written in the source.
-/

namespace LdkCli

/-- A JSON-like value tree, the target of serialization. -/
inductive Json where
  | str : String → Json
  | num : Nat → Json
  | arr : List Json → Json
  | obj : List (String × Json) → Json

/-- Modelled from the spec: a PageCursor is an opaque token plus a numeric
index (`PageToken` in the upstream protobuf schema). -/
structure PageToken where
  token : String
  index : Nat

/-- Modelled from the spec: the on-chain payment variant is passed through
unchanged by this layer and none of its internals are inspected; it is
represented here by an opaque payload. -/
structure Onchain where
  payload : String
deriving DecidableEq

/-- Modelled from the spec: the LSP fee-limit policy record is passed
through structurally as received; its internals are opaque to this layer. -/
structure LspFeeLimits where
  payload : String
deriving DecidableEq

/-- Upstream BOLT11 payment record, field shapes as accessed by the CLI
code: required hash, optional preimage (plain text), optional secret bytes. -/
structure Bolt11 where
  hash : String
  preimage : Option String
  secret : Option (List Nat)
deriving DecidableEq

/-- Upstream BOLT11-JIT payment record: BOLT11 fields plus the fee-limit
policy and the counterparty-skimmed fee, both optional. -/
structure Bolt11Jit where
  hash : String
  preimage : Option String
  secret : Option (List Nat)
  lsp_fee_limits : Option LspFeeLimits
  counterparty_skimmed_fee_msat : Option Nat
deriving DecidableEq

/-- Upstream BOLT12-offer payment record: optional hash/preimage/secret,
required offer identifier, optional payer note and quantity. -/
structure Bolt12Offer where
  hash : Option String
  preimage : Option String
  secret : Option (List Nat)
  offer_id : String
  payer_note : Option String
  quantity : Option Nat
deriving DecidableEq

/-- Upstream BOLT12-refund payment record: same shape as the offer record
minus the offer identifier; every field optional. -/
structure Bolt12Refund where
  hash : Option String
  preimage : Option String
  secret : Option (List Nat)
  payer_note : Option String
  quantity : Option Nat
deriving DecidableEq

/-- Upstream spontaneous payment record: hash and optional preimage only. -/
structure Spontaneous where
  hash : String
  preimage : Option String
deriving DecidableEq

/-- The inner tagged union of payment mechanisms (`payment_kind::Kind`). -/
inductive PaymentKindInner where
  | onchain : Onchain → PaymentKindInner
  | bolt11 : Bolt11 → PaymentKindInner
  | bolt11Jit : Bolt11Jit → PaymentKindInner
  | bolt12Offer : Bolt12Offer → PaymentKindInner
  | bolt12Refund : Bolt12Refund → PaymentKindInner
  | spontaneous : Spontaneous → PaymentKindInner
deriving DecidableEq

/-- The `PaymentKind` wrapper message: its oneof field decodes to `none`
when the tag is unset or unrecognized. -/
structure PaymentKind where
  kind : Option PaymentKindInner
deriving DecidableEq

/-- Modelled from the spec: the payment direction enumeration with its
canonical textual names (`INBOUND`, `OUTBOUND`); the wire format carries an
integer code. -/
inductive PaymentDirection where
  | inbound
  | outbound
deriving DecidableEq

/-- Modelled from the spec: decode a wire integer code to a direction, if
recognized. -/
def PaymentDirection.fromCode : Int → Option PaymentDirection
  | 0 => some .inbound
  | 1 => some .outbound
  | _ => none

/-- Modelled from the spec: the canonical textual name of each direction. -/
def PaymentDirection.asStrName : PaymentDirection → String
  | .inbound => "INBOUND"
  | .outbound => "OUTBOUND"

/-- Modelled from the spec: the payment status enumeration with its
canonical textual names (`PENDING`, `SUCCEEDED`, `FAILED`). -/
inductive PaymentStatus where
  | pending
  | succeeded
  | failed
deriving DecidableEq

/-- Modelled from the spec: decode a wire integer code to a status, if
recognized. -/
def PaymentStatus.fromCode : Int → Option PaymentStatus
  | 0 => some .pending
  | 1 => some .succeeded
  | 2 => some .failed
  | _ => none

/-- Modelled from the spec: the canonical textual name of each status. -/
def PaymentStatus.asStrName : PaymentStatus → String
  | .pending => "PENDING"
  | .succeeded => "SUCCEEDED"
  | .failed => "FAILED"

/-- Upstream `Payment` record as accessed by the CLI code: id, optional
tagged kind, optional amounts, integer direction and status codes, and a
timestamp. -/
structure Payment where
  id : String
  kind : Option PaymentKind
  amount_msat : Option Nat
  fee_paid_msat : Option Nat
  direction : Int
  status : Int
  latest_update_timestamp : Nat
deriving DecidableEq

/-- The generated enum accessor `payment.direction()`: decode the stored
code, falling back to the default variant when unrecognized. -/
def Payment.directionEnum (p : Payment) : PaymentDirection :=
  (PaymentDirection.fromCode p.direction).getD .inbound

/-- The generated enum accessor `payment.status()`: decode the stored code,
falling back to the default variant when unrecognized. -/
def Payment.statusEnum (p : Payment) : PaymentStatus :=
  (PaymentStatus.fromCode p.status).getD .pending

/-- Upstream `ListPaymentsResponse`: the payments and an optional cursor. -/
structure ListPaymentsResponse where
  payments : List Payment
  next_page_token : Option PageToken

/-- Upstream `GetPaymentDetailsResponse`: zero or one payment. -/
structure GetPaymentDetailsResponse where
  payment : Option Payment

/-- One hex digit (lowercase) for a nibble value. -/
def hexDigitChar (n : Nat) : Char := Nat.digitChar n

/-- Lowercase hex characters of a byte sequence: one byte yields two
digits, high nibble first (the behaviour of `as_hex` used by `CliBytes`). -/
def encodeHexChars : List Nat → List Char
  | [] => []
  | b :: bs => hexDigitChar (b / 16 % 16) :: hexDigitChar (b % 16) :: encodeHexChars bs

/-- Lowercase hex string of a byte sequence, no prefix, no separators. -/
def encodeHex (bs : List Nat) : String :=
  ⟨encodeHexChars bs⟩

/-- `CliBytes`: a byte field rendered as its hex string
(`serde(transparent)`, so it serializes as the bare string). -/
structure CliBytes where
  val : String
deriving DecidableEq

/-- The `From<T: AsRef<[u8]>> for CliBytes` impl: hex-encode the bytes. -/
def CliBytes.fromBytes (bs : List Nat) : CliBytes :=
  ⟨encodeHex bs⟩

/-- `CliBolt11`: display form of a BOLT11 payment. -/
structure CliBolt11 where
  hash : String
  preimage : Option String
  secret : Option CliBytes
deriving DecidableEq

/-- `From<Bolt11> for CliBolt11`. -/
def CliBolt11.fromBolt11 (b : Bolt11) : CliBolt11 :=
  { hash := b.hash, preimage := b.preimage, secret := b.secret.map CliBytes.fromBytes }

/-- `CliBolt11Jit`: display form of a BOLT11-JIT payment. -/
structure CliBolt11Jit where
  hash : String
  preimage : Option String
  secret : Option CliBytes
  lsp_fee_limits : Option LspFeeLimits
  counterparty_skimmed_fee_msat : Option Nat
deriving DecidableEq

/-- `From<Bolt11Jit> for CliBolt11Jit`. -/
def CliBolt11Jit.fromBolt11Jit (j : Bolt11Jit) : CliBolt11Jit :=
  { hash := j.hash, preimage := j.preimage, secret := j.secret.map CliBytes.fromBytes,
    lsp_fee_limits := j.lsp_fee_limits,
    counterparty_skimmed_fee_msat := j.counterparty_skimmed_fee_msat }

/-- `CliBolt12Offer`: display form of a BOLT12-offer payment. -/
structure CliBolt12Offer where
  hash : Option String
  preimage : Option String
  secret : Option CliBytes
  offer_id : String
  payer_note : Option String
  quantity : Option Nat
deriving DecidableEq

/-- `From<Bolt12Offer> for CliBolt12Offer`. -/
def CliBolt12Offer.fromBolt12Offer (o : Bolt12Offer) : CliBolt12Offer :=
  { hash := o.hash, preimage := o.preimage, secret := o.secret.map CliBytes.fromBytes,
    offer_id := o.offer_id, payer_note := o.payer_note, quantity := o.quantity }

/-- `CliBolt12Refund`: display form of a BOLT12-refund payment. -/
structure CliBolt12Refund where
  hash : Option String
  preimage : Option String
  secret : Option CliBytes
  payer_note : Option String
  quantity : Option Nat
deriving DecidableEq

/-- `From<Bolt12Refund> for CliBolt12Refund`. -/
def CliBolt12Refund.fromBolt12Refund (r : Bolt12Refund) : CliBolt12Refund :=
  { hash := r.hash, preimage := r.preimage, secret := r.secret.map CliBytes.fromBytes,
    payer_note := r.payer_note, quantity := r.quantity }

/-- `CliSpontaneous`: display form of a spontaneous payment. -/
structure CliSpontaneous where
  hash : String
  preimage : Option String
deriving DecidableEq

/-- `From<Spontaneous> for CliSpontaneous`. -/
def CliSpontaneous.fromSpontaneous (s : Spontaneous) : CliSpontaneous :=
  { hash := s.hash, preimage := s.preimage }

/-- `CliPaymentKind`: display-oriented tagged union of payment mechanisms. -/
inductive CliPaymentKind where
  | onchain : Onchain → CliPaymentKind
  | bolt11 : CliBolt11 → CliPaymentKind
  | bolt11Jit : CliBolt11Jit → CliPaymentKind
  | bolt12Offer : CliBolt12Offer → CliPaymentKind
  | bolt12Refund : CliBolt12Refund → CliPaymentKind
  | spontaneous : CliSpontaneous → CliPaymentKind
deriving DecidableEq

/-- `CliPaymentKind::from_payment_kind`: `none` in, or an unset inner tag,
yields `none`; otherwise dispatch on the kind and convert. -/
def CliPaymentKind.from_payment_kind (kind : Option PaymentKind) : Option CliPaymentKind :=
  kind.bind fun k =>
    k.kind.map fun inner =>
      match inner with
      | .onchain o => CliPaymentKind.onchain o
      | .bolt11 b => CliPaymentKind.bolt11 (CliBolt11.fromBolt11 b)
      | .bolt11Jit j => CliPaymentKind.bolt11Jit (CliBolt11Jit.fromBolt11Jit j)
      | .bolt12Offer o => CliPaymentKind.bolt12Offer (CliBolt12Offer.fromBolt12Offer o)
      | .bolt12Refund r => CliPaymentKind.bolt12Refund (CliBolt12Refund.fromBolt12Refund r)
      | .spontaneous s => CliPaymentKind.spontaneous (CliSpontaneous.fromSpontaneous s)

/-- `CliPayment`: display form of a payment, with textual direction and
status. -/
structure CliPayment where
  id : String
  kind : Option CliPaymentKind
  amount_msat : Option Nat
  fee_paid_msat : Option Nat
  direction : String
  status : String
  latest_update_timestamp : Nat
deriving DecidableEq

/-- `From<Payment> for CliPayment`: resolve direction and status to their
textual names, normalize the kind, carry everything else through. -/
def CliPayment.fromPayment (payment : Payment) : CliPayment :=
  { id := payment.id
    kind := CliPaymentKind.from_payment_kind payment.kind
    amount_msat := payment.amount_msat
    fee_paid_msat := payment.fee_paid_msat
    direction := payment.directionEnum.asStrName
    status := payment.statusEnum.asStrName
    latest_update_timestamp := payment.latest_update_timestamp }

/-- `format_page_token`: render a cursor as `"{token}:{index}"`. -/
def format_page_token (token : PageToken) : String :=
  let t := token.token
  let i := token.index
  s!"{t}:{i}"

/-- `CliPaginatedResponse<T>`: items plus an optional formatted cursor. -/
structure CliPaginatedResponse (T : Type) where
  list : List T
  next_page_token : Option String

/-- `CliPaginatedResponse::new`: format the cursor when present. -/
def CliPaginatedResponse.new {T : Type} (list : List T) (next_page_token : Option PageToken) :
    CliPaginatedResponse T :=
  { list := list, next_page_token := next_page_token.map format_page_token }

/-- `From<ListPaymentsResponse> for CliListPaymentsResponse`. -/
def CliListPaymentsResponse.fromResponse (response : ListPaymentsResponse) :
    CliPaginatedResponse CliPayment :=
  CliPaginatedResponse.new (response.payments.map CliPayment.fromPayment)
    response.next_page_token

/-- `CliGetPaymentDetailsResponse`: zero or one display payment. -/
structure CliGetPaymentDetailsResponse where
  payment : Option CliPayment
deriving DecidableEq

/-- `From<GetPaymentDetailsResponse> for CliGetPaymentDetailsResponse`. -/
def CliGetPaymentDetailsResponse.fromResponse (response : GetPaymentDetailsResponse) :
    CliGetPaymentDetailsResponse :=
  { payment := response.payment.map CliPayment.fromPayment }

/-! ### Serialization

serde emits struct fields in declaration order; a field annotated
`skip_serializing_if = "Option::is_none"` is omitted entirely when `none`.
An enum serializes externally tagged, with `rename_all = "snake_case"`
tags.  Serialization of each record is modelled as a field list. -/

/-- An optional field: present exactly when the value is `some`. -/
def optField (key : String) : Option Json → List (String × Json)
  | none => []
  | some v => [(key, v)]

/-- Opaque serialization of the pass-through `Onchain` record. -/
def Onchain.serialize (o : Onchain) : Json :=
  .str o.payload

/-- Opaque serialization of the pass-through `LspFeeLimits` record. -/
def LspFeeLimits.serialize (l : LspFeeLimits) : Json :=
  .str l.payload

/-- Serialization of `CliBolt11`: `hash` unconditional; `preimage` and
`secret` skipped when `none`. -/
def CliBolt11.serialize (b : CliBolt11) : List (String × Json) :=
  [("hash", .str b.hash)]
    ++ optField "preimage" (b.preimage.map .str)
    ++ optField "secret" (b.secret.map fun s => .str s.val)

/-- Serialization of `CliBolt11Jit`: `hash` unconditional; the four
optional fields skipped when `none`. -/
def CliBolt11Jit.serialize (j : CliBolt11Jit) : List (String × Json) :=
  [("hash", .str j.hash)]
    ++ optField "preimage" (j.preimage.map .str)
    ++ optField "secret" (j.secret.map fun s => .str s.val)
    ++ optField "lsp_fee_limits" (j.lsp_fee_limits.map LspFeeLimits.serialize)
    ++ optField "counterparty_skimmed_fee_msat" (j.counterparty_skimmed_fee_msat.map .num)

/-- Serialization of `CliBolt12Offer`: `offer_id` unconditional; the five
optional fields skipped when `none`. -/
def CliBolt12Offer.serialize (o : CliBolt12Offer) : List (String × Json) :=
  optField "hash" (o.hash.map .str)
    ++ optField "preimage" (o.preimage.map .str)
    ++ optField "secret" (o.secret.map fun s => .str s.val)
    ++ [("offer_id", .str o.offer_id)]
    ++ optField "payer_note" (o.payer_note.map .str)
    ++ optField "quantity" (o.quantity.map .num)

/-- Serialization of `CliBolt12Refund`: every field optional, skipped when
`none`. -/
def CliBolt12Refund.serialize (r : CliBolt12Refund) : List (String × Json) :=
  optField "hash" (r.hash.map .str)
    ++ optField "preimage" (r.preimage.map .str)
    ++ optField "secret" (r.secret.map fun s => .str s.val)
    ++ optField "payer_note" (r.payer_note.map .str)
    ++ optField "quantity" (r.quantity.map .num)

/-- Serialization of `CliSpontaneous`: `hash` unconditional; `preimage`
skipped when `none`. -/
def CliSpontaneous.serialize (s : CliSpontaneous) : List (String × Json) :=
  [("hash", .str s.hash)] ++ optField "preimage" (s.preimage.map .str)

/-- Serialization of `CliPaymentKind`: externally tagged with snake_case
variant names. -/
def CliPaymentKind.serialize : CliPaymentKind → Json
  | .onchain o => .obj [("onchain", o.serialize)]
  | .bolt11 b => .obj [("bolt11", .obj b.serialize)]
  | .bolt11Jit j => .obj [("bolt11_jit", .obj j.serialize)]
  | .bolt12Offer o => .obj [("bolt12_offer", .obj o.serialize)]
  | .bolt12Refund r => .obj [("bolt12_refund", .obj r.serialize)]
  | .spontaneous s => .obj [("spontaneous", .obj s.serialize)]

/-- Serialization of `CliPayment`: `kind`, `amount_msat` and
`fee_paid_msat` skipped when `none`; the rest unconditional, in
declaration order. -/
def CliPayment.serialize (p : CliPayment) : List (String × Json) :=
  [("id", .str p.id)]
    ++ optField "kind" (p.kind.map CliPaymentKind.serialize)
    ++ optField "amount_msat" (p.amount_msat.map .num)
    ++ optField "fee_paid_msat" (p.fee_paid_msat.map .num)
    ++ [("direction", .str p.direction), ("status", .str p.status),
        ("latest_update_timestamp", .num p.latest_update_timestamp)]

/-- Serialization of `CliPaginatedResponse<T>`, given a serializer for the
element type: `next_page_token` skipped when `none`. -/
def CliPaginatedResponse.serialize {T : Type} (serT : T → Json)
    (r : CliPaginatedResponse T) : List (String × Json) :=
  [("list", .arr (r.list.map serT))]
    ++ optField "next_page_token" (r.next_page_token.map .str)

/-- Serialization of `CliGetPaymentDetailsResponse`: `payment` skipped when
`none`. -/
def CliGetPaymentDetailsResponse.serialize (r : CliGetPaymentDetailsResponse) :
    List (String × Json) :=
  optField "payment" (r.payment.map fun p => .obj p.serialize)

/-- The keys present in a serialized field list. -/
def keysOf (fields : List (String × Json)) : List String :=
  fields.map Prod.fst

end LdkCli

namespace LdkCli

/-! ### Helper lemmas -/

lemma hexDigitChar_mem_hex (n : Nat) :
    ("0123456789abcdef".data.contains (hexDigitChar (n % 16))) = true := by
  have hlt : n % 16 < 16 := Nat.mod_lt _ (by decide)
  have hall : ∀ m, m < 16 → ("0123456789abcdef".data.contains (hexDigitChar m)) = true := by
    decide
  exact hall _ hlt

lemma encodeHexChars_length (bs : List Nat) :
    (encodeHexChars bs).length = 2 * bs.length := by
  induction bs with
  | nil => rfl
  | cons b bs ih => simp [encodeHexChars, ih]; omega

lemma encodeHexChars_all_hex (bs : List Nat) :
    ((encodeHexChars bs).all fun c => "0123456789abcdef".data.contains c) = true := by
  induction bs with
  | nil => rfl
  | cons b bs ih =>
    simp only [encodeHexChars, List.all_cons, ih, Bool.and_true]
    rw [show b / 16 % 16 = b / 16 % 16 % 16 by omega]
    rw [hexDigitChar_mem_hex, hexDigitChar_mem_hex]
    rfl

end LdkCli
namespace LdkCli

/-- C3: for every PageCursor `(token, index)`, the pagination token
formatter returns exactly the token text, a single ':', and the decimal
rendering of the index, with nothing else. -/
theorem format_page_token_exact (t : PageToken) :
    format_page_token t = t.token ++ ":" ++ Nat.repr t.index := by
  simp [format_page_token, toString, String.append]

/-- C5: for every byte sequence (including the empty one), the hex encoder
produces a string of length exactly twice the byte count whose characters
are all lowercase hex digits. -/
theorem encodeHex_length_and_charset (bs : List Nat) :
    (encodeHex bs).length = 2 * bs.length ∧
      ((encodeHex bs).data.all fun c => "0123456789abcdef".data.contains c) = true := by
  refine ⟨?_, ?_⟩
  · show (encodeHexChars bs).length = 2 * bs.length
    exact encodeHexChars_length bs
  · show ((encodeHexChars bs).all fun c => "0123456789abcdef".data.contains c) = true
    exact encodeHexChars_all_hex bs

/-- C8: the list-payments adapter maps the payment normalizer over the
input payments element-wise, preserving length and order, and carries the
cursor through the token formatter. -/
theorem list_payments_elementwise (resp : ListPaymentsResponse) :
    (CliListPaymentsResponse.fromResponse resp).list
        = resp.payments.map CliPayment.fromPayment ∧
      (CliListPaymentsResponse.fromResponse resp).list.length = resp.payments.length ∧
      (∀ i : Nat, (CliListPaymentsResponse.fromResponse resp).list.get? i
        = (resp.payments.get? i).map CliPayment.fromPayment) ∧
      (CliListPaymentsResponse.fromResponse resp).next_page_token
        = resp.next_page_token.map format_page_token := by
  refine ⟨rfl, by simp [CliListPaymentsResponse.fromResponse, CliPaginatedResponse.new],
    fun i => ?_, rfl⟩
  simp [CliListPaymentsResponse.fromResponse, CliPaginatedResponse.new, List.get?_map]

/-- C9: the get-payment-details adapter normalizes a present payment, and
when the payment is absent the serialized output record has no key at all. -/
theorem get_payment_details_adapts (p : Payment) :
    (CliGetPaymentDetailsResponse.fromResponse ⟨some p⟩).payment
        = some (CliPayment.fromPayment p) ∧
      (CliGetPaymentDetailsResponse.fromResponse ⟨some p⟩).serialize
        = [("payment", .obj (CliPayment.fromPayment p).serialize)] ∧
      (CliGetPaymentDetailsResponse.fromResponse ⟨none⟩).serialize = [] := by
  exact ⟨rfl, rfl, rfl⟩

/-- C4: the paginated-envelope serialization carries exactly the formatted
"token:index" string when a cursor is present, and contains no
next-page-token field at all when the cursor is absent. -/
theorem paginated_token_presence {T : Type} (serT : T → Json) (l : List T) (c : PageToken) :
    CliPaginatedResponse.serialize serT (CliPaginatedResponse.new l (some c))
        = [("list", .arr (l.map serT)), ("next_page_token", .str (format_page_token c))] ∧
      CliPaginatedResponse.serialize serT (CliPaginatedResponse.new l none)
        = [("list", .arr (l.map serT))] := by
  exact ⟨rfl, rfl⟩

/-- C2: when the payment-mechanism variant is absent, and also when the
wrapper is present but its inner tag is unset/unrecognized, the normalizer
produces no kind at all and the serialized payment contains no kind key. -/
theorem kind_absent_omitted (id : String) (amt fee : Option Nat) (dir st : Int) (ts : Nat) :
    CliPaymentKind.from_payment_kind none = none ∧
      CliPaymentKind.from_payment_kind (some ⟨none⟩) = none ∧
      ((keysOf (CliPayment.fromPayment
          ⟨id, none, amt, fee, dir, st, ts⟩).serialize).contains "kind") = false ∧
      ((keysOf (CliPayment.fromPayment
          ⟨id, some ⟨none⟩, amt, fee, dir, st, ts⟩).serialize).contains "kind") = false := by
  refine ⟨rfl, rfl, ?_, ?_⟩ <;>
    cases amt <;> cases fee <;>
      simp [CliPayment.fromPayment, CliPayment.serialize, CliPaymentKind.from_payment_kind,
        optField, keysOf]

/-- C6: the normalizer renders direction and status as the canonical
textual names of the decoded enumeration codes, and these are always drawn
from the fixed name sets, never numeric renderings. -/
theorem direction_status_textual (p : Payment) :
    (CliPayment.fromPayment p).direction = p.directionEnum.asStrName ∧
      (CliPayment.fromPayment p).status = p.statusEnum.asStrName ∧
      ((["INBOUND", "OUTBOUND"] : List String).contains
        (CliPayment.fromPayment p).direction) = true ∧
      ((["PENDING", "SUCCEEDED", "FAILED"] : List String).contains
        (CliPayment.fromPayment p).status) = true := by
  refine ⟨rfl, rfl, ?_, ?_⟩
  · show (["INBOUND", "OUTBOUND"] : List String).contains p.directionEnum.asStrName = true
    cases p.directionEnum <;> rfl
  · show (["PENDING", "SUCCEEDED", "FAILED"] : List String).contains p.statusEnum.asStrName = true
    cases p.statusEnum <;> rfl

/-- C7: concrete scenario: a BOLT11 outbound succeeded payment with no
preimage and secret bytes [0xDE, 0xAD] normalizes to hash "abc" unchanged,
secret hex-encoded as "dead", direction "OUTBOUND", status "SUCCEEDED",
and its serialized variant omits the preimage key entirely. -/
theorem bolt11_scenario :
    CliPayment.fromPayment
        ⟨"p1", some ⟨some (.bolt11 ⟨"abc", none, some [0xDE, 0xAD]⟩)⟩,
          some 1000, none, 1, 1, 42⟩
        = ⟨"p1", some (.bolt11 ⟨"abc", none, some ⟨"dead"⟩⟩),
            some 1000, none, "OUTBOUND", "SUCCEEDED", 42⟩ ∧
      ((keysOf (CliBolt11.serialize ⟨"abc", none, some ⟨"dead"⟩⟩)).contains "preimage")
          = false ∧
      ("hash", Json.str "abc") ∈ CliBolt11.serialize ⟨"abc", none, some ⟨"dead"⟩⟩ ∧
      ("secret", Json.str "dead") ∈ CliBolt11.serialize ⟨"abc", none, some ⟨"dead"⟩⟩ := by
  refine ⟨by decide, rfl, ?_, ?_⟩ <;> simp [CliBolt11.serialize, optField]

/-- C1: for each of the six payment-mechanism kinds, normalizing a raw
payment of that kind yields the same-kind display variant with every field
of that kind preserved (secrets hex-encoded), and the serialized variant
carries only keys belonging to that kind. -/
theorem normalize_preserves_each_kind :
    (∀ o : Onchain,
      CliPaymentKind.from_payment_kind (some ⟨some (.onchain o)⟩)
        = some (.onchain o)) ∧
    (∀ b : Bolt11,
      CliPaymentKind.from_payment_kind (some ⟨some (.bolt11 b)⟩)
          = some (.bolt11 ⟨b.hash, b.preimage, b.secret.map CliBytes.fromBytes⟩) ∧
        ((keysOf (CliBolt11.fromBolt11 b).serialize).all
          fun k => (["hash", "preimage", "secret"] : List String).contains k) = true) ∧
    (∀ j : Bolt11Jit,
      CliPaymentKind.from_payment_kind (some ⟨some (.bolt11Jit j)⟩)
          = some (.bolt11Jit ⟨j.hash, j.preimage, j.secret.map CliBytes.fromBytes,
              j.lsp_fee_limits, j.counterparty_skimmed_fee_msat⟩) ∧
        ((keysOf (CliBolt11Jit.fromBolt11Jit j).serialize).all
          fun k => (["hash", "preimage", "secret", "lsp_fee_limits",
            "counterparty_skimmed_fee_msat"] : List String).contains k) = true) ∧
    (∀ o : Bolt12Offer,
      CliPaymentKind.from_payment_kind (some ⟨some (.bolt12Offer o)⟩)
          = some (.bolt12Offer ⟨o.hash, o.preimage, o.secret.map CliBytes.fromBytes,
              o.offer_id, o.payer_note, o.quantity⟩) ∧
        ((keysOf (CliBolt12Offer.fromBolt12Offer o).serialize).all
          fun k => (["hash", "preimage", "secret", "offer_id", "payer_note",
            "quantity"] : List String).contains k) = true) ∧
    (∀ r : Bolt12Refund,
      CliPaymentKind.from_payment_kind (some ⟨some (.bolt12Refund r)⟩)
          = some (.bolt12Refund ⟨r.hash, r.preimage, r.secret.map CliBytes.fromBytes,
              r.payer_note, r.quantity⟩) ∧
        ((keysOf (CliBolt12Refund.fromBolt12Refund r).serialize).all
          fun k => (["hash", "preimage", "secret", "payer_note",
            "quantity"] : List String).contains k) = true) ∧
    (∀ s : Spontaneous,
      CliPaymentKind.from_payment_kind (some ⟨some (.spontaneous s)⟩)
          = some (.spontaneous ⟨s.hash, s.preimage⟩) ∧
        ((keysOf (CliSpontaneous.fromSpontaneous s).serialize).all
          fun k => (["hash", "preimage"] : List String).contains k) = true) := by
  refine ⟨fun o => rfl, fun b => ⟨rfl, ?_⟩, fun j => ⟨rfl, ?_⟩, fun o => ⟨rfl, ?_⟩,
    fun r => ⟨rfl, ?_⟩, fun s => ⟨rfl, ?_⟩⟩
  · rcases b with ⟨h, pre, sec⟩
    cases pre <;> cases sec <;>
      simp [CliBolt11.fromBolt11, CliBolt11.serialize, optField, keysOf]
  · rcases j with ⟨h, pre, sec, fl, cf⟩
    cases pre <;> cases sec <;> cases fl <;> cases cf <;>
      simp [CliBolt11Jit.fromBolt11Jit, CliBolt11Jit.serialize, optField, keysOf]
  · rcases o with ⟨h, pre, sec, oid, pn, q⟩
    cases h <;> cases pre <;> cases sec <;> cases pn <;> cases q <;>
      simp [CliBolt12Offer.fromBolt12Offer, CliBolt12Offer.serialize, optField, keysOf]
  · rcases r with ⟨h, pre, sec, pn, q⟩
    cases h <;> cases pre <;> cases sec <;> cases pn <;> cases q <;>
      simp [CliBolt12Refund.fromBolt12Refund, CliBolt12Refund.serialize, optField, keysOf]
  · rcases s with ⟨h, pre⟩
    cases pre <;>
      simp [CliSpontaneous.fromSpontaneous, CliSpontaneous.serialize, optField, keysOf]

/-- C10: in serialized variants the BOLT11/BOLT11-JIT/spontaneous hash key
and the BOLT12-offer offer_id key are always present, while every optional
field (including every field of BOLT12-refund) appears exactly when its
value is present, and an all-absent refund serializes to no fields at all. -/
theorem serialized_field_presence :
    (∀ b : CliBolt11,
      ((keysOf b.serialize).contains "hash") = true ∧
        ((keysOf b.serialize).contains "preimage") = b.preimage.isSome ∧
        ((keysOf b.serialize).contains "secret") = b.secret.isSome) ∧
    (∀ j : CliBolt11Jit,
      ((keysOf j.serialize).contains "hash") = true ∧
        ((keysOf j.serialize).contains "preimage") = j.preimage.isSome ∧
        ((keysOf j.serialize).contains "secret") = j.secret.isSome ∧
        ((keysOf j.serialize).contains "lsp_fee_limits") = j.lsp_fee_limits.isSome ∧
        ((keysOf j.serialize).contains "counterparty_skimmed_fee_msat")
          = j.counterparty_skimmed_fee_msat.isSome) ∧
    (∀ o : CliBolt12Offer,
      ((keysOf o.serialize).contains "offer_id") = true ∧
        ((keysOf o.serialize).contains "hash") = o.hash.isSome ∧
        ((keysOf o.serialize).contains "preimage") = o.preimage.isSome ∧
        ((keysOf o.serialize).contains "secret") = o.secret.isSome ∧
        ((keysOf o.serialize).contains "payer_note") = o.payer_note.isSome ∧
        ((keysOf o.serialize).contains "quantity") = o.quantity.isSome) ∧
    (∀ r : CliBolt12Refund,
      ((keysOf r.serialize).contains "hash") = r.hash.isSome ∧
        ((keysOf r.serialize).contains "preimage") = r.preimage.isSome ∧
        ((keysOf r.serialize).contains "secret") = r.secret.isSome ∧
        ((keysOf r.serialize).contains "payer_note") = r.payer_note.isSome ∧
        ((keysOf r.serialize).contains "quantity") = r.quantity.isSome) ∧
    CliBolt12Refund.serialize ⟨none, none, none, none, none⟩ = [] ∧
    (∀ s : CliSpontaneous,
      ((keysOf s.serialize).contains "hash") = true ∧
        ((keysOf s.serialize).contains "preimage") = s.preimage.isSome) := by
  refine ⟨fun b => ?_, fun j => ?_, fun o => ?_, fun r => ?_, rfl, fun s => ?_⟩
  · rcases b with ⟨h, pre, sec⟩
    cases pre <;> cases sec <;> simp [CliBolt11.serialize, optField, keysOf]
  · rcases j with ⟨h, pre, sec, fl, cf⟩
    cases pre <;> cases sec <;> cases fl <;> cases cf <;>
      simp [CliBolt11Jit.serialize, optField, keysOf]
  · rcases o with ⟨h, pre, sec, oid, pn, q⟩
    cases h <;> cases pre <;> cases sec <;> cases pn <;> cases q <;>
      simp [CliBolt12Offer.serialize, optField, keysOf]
  · rcases r with ⟨h, pre, sec, pn, q⟩
    cases h <;> cases pre <;> cases sec <;> cases pn <;> cases q <;>
      simp [CliBolt12Refund.serialize, optField, keysOf]
  · rcases s with ⟨h, pre⟩
    cases pre <;> simp [CliSpontaneous.serialize, optField, keysOf]

end LdkCli
